import Mathlib

/-!
Verification of the artifact-restoration multi-agent pipeline.

Shallow embedding of the Python sources:
  * `adk_config.py`        — `ContextManager` (context store shared by the agents)
  * `tools/restoration_tools.py` — `predict_degradation`, `restore_artifact_image`
  * `agents/sequential_agents.py` — stage handlers (restoration, environmental)
  * `adk_orchestrator.py`  — `ADKOrchestrator.process_artifact`

Python dictionaries are modelled as insertion-ordered association lists over
`String` keys; Python values as the inductive `PyVal`.  External effects
(Gemini / DALL-E / PIL calls, environment variables) are passed in explicitly
as oracle parameters, so every definition is a pure, executable function.
Numeric values that are Python floats are modelled as exact rationals; all
numbers reached by the claims are exact multiples of 1/10, where float and
rational arithmetic produce the same observable results.
-/

set_option maxHeartbeats 1000000
set_option linter.unusedVariables false

/-- A Python value, as stored in the context manager and the result dicts. -/
inductive PyVal where
  | none : PyVal
  | bool : Bool → PyVal
  | int : Int → PyVal
  | rat : ℚ → PyVal
  | str : String → PyVal
  | list : List PyVal → PyVal
  | dict : List (String × PyVal) → PyVal

/-- A Python dict with `String` keys: insertion-ordered association list. -/
abbrev PyDict := List (String × PyVal)

/-- Python truthiness (`if value:`). -/
def pyTruthy : PyVal → Bool
  | PyVal.none => false
  | PyVal.bool b => b
  | PyVal.int n => n != 0
  | PyVal.rat q => q != 0
  | PyVal.str s => s != ""
  | PyVal.list l => !l.isEmpty
  | PyVal.dict d => !d.isEmpty

mutual
/-- Python `repr` of a value (string-escape details elided: embedded quotes
are not re-escaped, which is enough for the values this program builds). -/
def pyRepr : PyVal → String
  | PyVal.none => "None"
  | PyVal.bool true => "True"
  | PyVal.bool false => "False"
  | PyVal.int n => toString n
  | PyVal.rat q => toString q
  | PyVal.str s => String.singleton (Char.ofNat 39) ++ s ++ String.singleton (Char.ofNat 39)
  | PyVal.list l => "[" ++ pyReprList l ++ "]"
  | PyVal.dict d => "\x7b" ++ pyReprDict d ++ "\x7d"

/-- Comma-separated reprs of list elements. -/
def pyReprList : List PyVal → String
  | [] => ""
  | [v] => pyRepr v
  | v :: t => pyRepr v ++ ", " ++ pyReprList t

/-- Comma-separated `'key': value` reprs of dict entries. -/
def pyReprDict : List (String × PyVal) → String
  | [] => ""
  | [(k, v)] => String.singleton (Char.ofNat 39) ++ k ++ String.singleton (Char.ofNat 39) ++ ": " ++ pyRepr v
  | (k, v) :: t =>
      String.singleton (Char.ofNat 39) ++ k ++ String.singleton (Char.ofNat 39) ++ ": " ++ pyRepr v
        ++ ", " ++ pyReprDict t
end

/-- Python `str` of a value (`str` on a string is the identity; on anything
else it agrees with `repr` for the value shapes this program builds). -/
def pyStr : PyVal → String
  | PyVal.str s => s
  | v => pyRepr v

/-- `d.get(k)` — `None` when the key is missing. -/
def dictGet (d : PyDict) (k : String) : PyVal :=
  (List.lookup k d).getD PyVal.none

/-- `d.get(k, default)`. -/
def dictGetD (d : PyDict) (k : String) (default : PyVal) : PyVal :=
  (List.lookup k d).getD default

/-- `v.get(k, default)` where `v` is a value known to be a dict.  (Python
would raise `AttributeError` on a non-dict; the stored agent outputs this is
applied to are always dicts, and the guards in the handlers check truthiness
first.) -/
def vGetD (v : PyVal) (k : String) (default : PyVal) : PyVal :=
  match v with
  | PyVal.dict d => dictGetD d k default
  | _ => default

/-- Coerce a value expected to be a `str` to a `String` (Python would raise
on genuinely non-string values; the values this is applied to are strings). -/
def asPyStr : PyVal → String
  | PyVal.str s => s
  | v => pyStr v

/-- Python `str.lower()` (ASCII case mapping, which is all these inputs use).
Stated via `List.map` on the character list so that it reduces. -/
def strLower (s : String) : String :=
  String.mk (s.data.map Char.toLower)

/-- `d[k] = v` on an insertion-ordered dict: replace in place if the key
exists, else append at the end. -/
def assocSet (d : PyDict) (k : String) (v : PyVal) : PyDict :=
  match d with
  | [] => [(k, v)]
  | (k2, v2) :: t => if k2 == k then (k, v) :: t else (k2, v2) :: assocSet t k v

/-- `ContextManager` from `adk_config.py`: conversation history, artifact
context and per-agent outputs. -/
structure ContextManager where
  conversation_history : List PyVal
  artifact_context : PyDict
  agent_outputs : PyDict

/-- A fresh `ContextManager()`. -/
def ContextManager.init : ContextManager :=
  { conversation_history := [], artifact_context := [], agent_outputs := [] }

/-- `set_artifact_context(key, value)`. -/
def ContextManager.set_artifact_context (cm : ContextManager) (key : String) (value : PyVal) :
    ContextManager :=
  { cm with artifact_context := assocSet cm.artifact_context key value }

/-- `get_artifact_context(key=None)`: under `if key:` a truthy key selects
`self.artifact_context.get(key)`; a falsy key (`None` or `""`) falls through
to returning the whole dict. -/
def ContextManager.get_artifact_context (cm : ContextManager) (key : Option String) : PyVal :=
  match key with
  | Option.some k =>
      if k ≠ "" then dictGet cm.artifact_context k else PyVal.dict cm.artifact_context
  | Option.none => PyVal.dict cm.artifact_context

/-- `store_agent_output(agent_name, output)`: plain dict assignment. -/
def ContextManager.store_agent_output (cm : ContextManager) (agent_name : String) (output : PyVal) :
    ContextManager :=
  { cm with agent_outputs := assocSet cm.agent_outputs agent_name output }

/-- `get_agent_output(agent_name)`. -/
def ContextManager.get_agent_output (cm : ContextManager) (agent_name : String) : PyVal :=
  dictGet cm.agent_outputs agent_name

/-- `build_context_prompt(current_agent)`: renders artifact context and all
prior agent outputs, in insertion order, joined by newlines.  The
`current_agent` parameter is never read. -/
def ContextManager.build_context_prompt (cm : ContextManager) (current_agent : String) : String :=
  let context_parts : List String := []
  let context_parts :=
    if cm.artifact_context.isEmpty then context_parts
    else
      context_parts ++ ["=== ARTIFACT CONTEXT ==="]
        ++ cm.artifact_context.map (fun kv => kv.1 ++ ": " ++ pyStr kv.2) ++ [""]
  let context_parts :=
    if cm.agent_outputs.isEmpty then context_parts
    else
      context_parts ++ ["=== PREVIOUS AGENT OUTPUTS ==="]
        ++ cm.agent_outputs.foldr
            (fun kv acc => ("\n--- " ++ kv.1 ++ " Output ---") :: pyStr kv.2 :: acc) []
        ++ [""]
  String.intercalate "\n" context_parts

/-- `clear()`. -/
def ContextManager.clear (cm : ContextManager) : ContextManager :=
  { cm with conversation_history := [], artifact_context := [], agent_outputs := [] }

-- Association-list lemmas shared by several developments below.

theorem lookup_assocSet_self (d : PyDict) (k : String) (v : PyVal) :
    List.lookup k (assocSet d k v) = Option.some v := by
  induction d with
  | nil => simp [assocSet, List.lookup]
  | cons hd t ih =>
      obtain ⟨k2, v2⟩ := hd
      by_cases h : k2 == k
      · simp [assocSet, h, List.lookup]
      · simp only [assocSet, h, if_false, Bool.false_eq_true, List.lookup]
        have h2 : (k == k2) = false := by
          cases h3 : k == k2
          · rfl
          · exact absurd (by simp_all [beq_iff_eq]) h
        simp [h2, ih]

theorem length_assocSet_of_mem (d : PyDict) (k : String) (v : PyVal)
    (h : (List.lookup k d).isSome) : (assocSet d k v).length = d.length := by
  induction d with
  | nil => simp [List.lookup] at h
  | cons hd t ih =>
      obtain ⟨k2, v2⟩ := hd
      by_cases h2 : k2 == k
      · simp [assocSet, h2]
      · have h3 : (k == k2) = false := by
          cases h4 : k == k2
          · rfl
          · exact absurd (by simp_all [beq_iff_eq]) h2
        simp only [List.lookup, h3] at h
        simp [assocSet, h2, ih h]

theorem lookup_assocSet_isSome (d : PyDict) (k : String) (v : PyVal) :
    (List.lookup k (assocSet d k v)).isSome := by
  rw [lookup_assocSet_self]
  rfl

/-! ## `tools/restoration_tools.py` -/

namespace Tools

/-- Python `round(x, 1)` on exact rationals: round to the nearest tenth,
ties to even (banker's rounding, as Python's `round` does). -/
def pyRound1 (q : ℚ) : ℚ :=
  ((if q * 10 - ((Int.floor (q * 10) : Int) : ℚ) = 1 / 2 then
      (if Int.floor (q * 10) % 2 = 0 then Int.floor (q * 10) else Int.floor (q * 10) + 1)
    else Int.floor (q * 10 + 1 / 2) : Int) : ℚ) / 10

/-- `degradation_rates`: percentage per year, by material. -/
def degradation_rates : List (String × ℚ) :=
  [("paper", 45 / 10), ("canvas", 35 / 10), ("wood", 28 / 10), ("textile", 40 / 10),
   ("stone", 8 / 10), ("metal", 15 / 10), ("ceramic", 10 / 10), ("glass", 5 / 10)]

/-- The result dict of `predict_degradation`, with its five keys as fields. -/
structure DegradationResult where
  status : String
  material : String
  years : Int
  degradation_percentage : ℚ
  condition : String

/-- Render a `DegradationResult` as the Python dict the tool returns. -/
def DegradationResult.toDict (r : DegradationResult) : PyDict :=
  [("status", PyVal.str r.status), ("material", PyVal.str r.material),
   ("years", PyVal.int r.years), ("degradation_percentage", PyVal.rat r.degradation_percentage),
   ("condition", PyVal.str r.condition)]

/-- `predict_degradation(material, years)` from `restoration_tools.py`. -/
def predict_degradation (material : String) (years : Int) : DegradationResult :=
  let material_lower := strLower material
  let rate : ℚ := (List.lookup material_lower degradation_rates).getD 3
  let degradation : ℚ := min (rate * (years : ℚ)) 100
  let condition : String :=
    if degradation < 10 then "Excellent - Minimal changes"
    else if degradation < 25 then "Good - Minor surface wear"
    else if degradation < 50 then "Fair - Noticeable degradation, some detail loss"
    else if degradation < 75 then "Poor - Significant deterioration"
    else "Critical - Severe damage, major restoration required"
  { status := "success", material := material, years := years,
    degradation_percentage := pyRound1 degradation, condition := condition }

end Tools

/-- The five ordered qualitative bands, as the spec words them:
Excellent < 10, Good < 25, Fair < 50, Poor < 75, Critical ≥ 75. -/
def specBand (p : ℚ) : String :=
  if p < 10 then "Excellent"
  else if p < 25 then "Good"
  else if p < 50 then "Fair"
  else if p < 75 then "Poor"
  else "Critical"

/-- The condition string the code emits for each spec band name. -/
def conditionTextFor : String → String
  | "Excellent" => "Excellent - Minimal changes"
  | "Good" => "Good - Minor surface wear"
  | "Fair" => "Fair - Noticeable degradation, some detail loss"
  | "Poor" => "Poor - Significant deterioration"
  | _ => "Critical - Severe damage, major restoration required"

theorem pyRound1_of_mul_ten_int (q : ℚ) (n : Int) (h : q * 10 = (n : ℚ)) :
    Tools.pyRound1 q = q := by
  unfold Tools.pyRound1
  rw [h]
  have hf : Int.floor ((n : ℚ)) = n := Int.floor_intCast n
  rw [hf]
  have hz : (n : ℚ) - (n : ℚ) = 0 := by ring
  rw [hz]
  have hne : (0 : ℚ) ≠ 1 / 2 := by norm_num
  rw [if_neg hne]
  have hhalf : Int.floor ((n : ℚ) + 1 / 2) = n := by
    rw [Int.floor_int_add]
    norm_num
  rw [hhalf]
  have hq : q = (n : ℚ) / 10 := by
    field_simp at h ⊢
    linarith
  linarith [hq]

theorem rate_mul_ten_int (m : String) :
    ∃ k : Int, ((List.lookup m Tools.degradation_rates).getD 3) * 10 = (k : ℚ) := by
  simp only [Tools.degradation_rates, List.lookup]
  repeat' split
  · exact ⟨45, by norm_num⟩
  · exact ⟨35, by norm_num⟩
  · exact ⟨28, by norm_num⟩
  · exact ⟨40, by norm_num⟩
  · exact ⟨8, by norm_num⟩
  · exact ⟨15, by norm_num⟩
  · exact ⟨10, by norm_num⟩
  · exact ⟨5, by norm_num⟩
  · exact ⟨30, by norm_num⟩

/-- The per-material rate `predict_degradation` uses: the fixed table keyed by
the lowercased material, default 3. -/
def Tools.rateFor (material : String) : ℚ :=
  (List.lookup (strLower material) Tools.degradation_rates).getD 3

theorem predict_degradation_percentage_eq (m : String) (y : Int) :
    (Tools.predict_degradation m y).degradation_percentage =
      min (Tools.rateFor m * (y : ℚ)) 100 := by
  obtain ⟨k, hk⟩ := rate_mul_ten_int (strLower m)
  show Tools.pyRound1 (min ((List.lookup (strLower m) Tools.degradation_rates).getD 3 * (y : ℚ)) 100) = _
  rw [pyRound1_of_mul_ten_int _ (min (k * y) 1000)]
  · rfl
  · rw [min_mul_of_nonneg _ _ (by norm_num : (0 : ℚ) ≤ 10)]
    rw [mul_right_comm, hk]
    push_cast
    norm_num

theorem predict_degradation_condition_eq (m : String) (y : Int) :
    (Tools.predict_degradation m y).condition =
      conditionTextFor (specBand (min (Tools.rateFor m * (y : ℚ)) 100)) := by
  show (if _ < (10 : ℚ) then _ else _) = _
  unfold specBand conditionTextFor Tools.rateFor
  split_ifs <;> rfl

/-- C3: the degradation calculation is a pure function of `(material, years)`:
percentage = `min(rate * years, 100)` with the per-material rate from the
fixed table and default rate 3.0 for unrecognised materials, mapped to the
five ordered bands (Excellent < 10, Good < 25, Fair < 50, Poor < 75,
Critical ≥ 75); in particular `predict("stone", 50)` yields 40% and band
Fair, `predict("paper", 30)` yields 100% and band Critical, and
`predict("stone", 20)` yields 16% and band Good. -/
theorem C3_predict_degradation_correct :
    (∀ (m : String) (y : Int),
        (Tools.predict_degradation m y).degradation_percentage =
            min (Tools.rateFor m * (y : ℚ)) 100
          ∧ (Tools.predict_degradation m y).condition =
              conditionTextFor (specBand (min (Tools.rateFor m * (y : ℚ)) 100)))
      ∧ (Tools.predict_degradation "stone" 50).degradation_percentage = 40
      ∧ (Tools.predict_degradation "stone" 50).condition =
          "Fair - Noticeable degradation, some detail loss"
      ∧ (Tools.predict_degradation "paper" 30).degradation_percentage = 100
      ∧ (Tools.predict_degradation "paper" 30).condition =
          "Critical - Severe damage, major restoration required"
      ∧ (Tools.predict_degradation "stone" 20).degradation_percentage = 16
      ∧ (Tools.predict_degradation "stone" 20).condition = "Good - Minor surface wear"
      ∧ Tools.rateFor "adamantium" = 3
      ∧ (Tools.predict_degradation "adamantium" 10).degradation_percentage = 30 := by
  have hstone : List.lookup "stone" Tools.degradation_rates = some (8 / 10) := by
    simp +decide [Tools.degradation_rates, List.lookup]
  have hpaper : List.lookup "paper" Tools.degradation_rates = some (45 / 10) := by
    simp +decide [Tools.degradation_rates, List.lookup]
  have hada : List.lookup "adamantium" Tools.degradation_rates = Option.none := by
    simp +decide [Tools.degradation_rates, List.lookup]
  have hls : strLower "stone" = "stone" := by simp [strLower]
  have hlp : strLower "paper" = "paper" := by simp [strLower]
  have hla : strLower "adamantium" = "adamantium" := by simp [strLower]
  refine ⟨fun m y => ⟨predict_degradation_percentage_eq m y,
    predict_degradation_condition_eq m y⟩, ?_, ?_, ?_, ?_, ?_, ?_, ?_, ?_⟩
  · norm_num [Tools.predict_degradation, hls, hstone, Tools.pyRound1]
  · norm_num [Tools.predict_degradation, hls, hstone]
  · norm_num [Tools.predict_degradation, hlp, hpaper, Tools.pyRound1]
  · norm_num [Tools.predict_degradation, hlp, hpaper]
  · norm_num [Tools.predict_degradation, hls, hstone, Tools.pyRound1]
  · norm_num [Tools.predict_degradation, hls, hstone]
  · norm_num [Tools.rateFor, hla, hada]
  · norm_num [Tools.predict_degradation, hla, hada, Tools.pyRound1]

/-- `value.get("status") == "success"` for a value known to be a dict
(`vision_output.get("status") != "success"` in the handlers): true exactly
when the entry is the string `"success"`. -/
def isStatusSuccessV (v : PyVal) : Bool :=
  match vGetD v "status" PyVal.none with
  | PyVal.str s => s == "success"
  | _ => false

/-- `result.get("status") != "success"` on a result dict, negated
(used by the orchestrator's gate checks). -/
def isStatusSuccess (d : PyDict) : Bool :=
  match dictGet d "status" with
  | PyVal.str s => s == "success"
  | _ => false

/-- The external effects of `restore_artifact_image`: filesystem check,
the `OPENAI_AVAILABLE` import flag, the `OPENAI_API_KEY` environment
variable, the Gemini analysis call (image open + `generate_content`), the
DALL-E generate-and-download call, and the base64 of the PIL-enhanced
original image (contrast 1.4 / sharpness 1.5 / color 1.3 / brightness 1.15
pipeline, abstracted as its output bytes). `Except.error e` models a raised
exception with message `e`. -/
structure RestoreEnv where
  imageExists : Bool
  openai_available : Bool
  openai_key : Option String
  geminiAnalysis : Except String String
  dalle : Except String String
  enhancedBase64 : String

/-- `restore_artifact_image(image_path, restoration_level, artifact_type)`
from `restoration_tools.py`: missing file and raised exceptions produce
error dicts; with OpenAI available, key set and DALL-E succeeding it returns
the generated image tagged `"OpenAI DALL-E 3 - Full Reconstruction"`;
otherwise it falls through to the enhanced-image dict tagged
`"Enhanced Image + AI Description (Set OPENAI_API_KEY for full generation)"`. -/
def Tools.restore_artifact_image (env : RestoreEnv) (image_path : String)
    (restoration_level : String) (artifact_type : String) : PyDict :=
  if !env.imageExists then
    [("status", PyVal.str "error"),
     ("error_message", PyVal.str ("Image not found: " ++ image_path))]
  else
    match env.geminiAnalysis with
    | Except.error e =>
        [("status", PyVal.str "error"),
         ("error_message", PyVal.str ("Restoration failed: " ++ e))]
    | Except.ok reconstruction_description =>
        let openai_key_truthy : Bool :=
          match env.openai_key with
          | Option.some s => s != ""
          | Option.none => false
        let dalleResult : Option String :=
          if env.openai_available && openai_key_truthy then
            match env.dalle with
            | Except.ok b64 => Option.some b64
            | Except.error _ => Option.none
          else Option.none
        match dalleResult with
        | Option.some generated_image_base64 =>
            [("status", PyVal.str "success"),
             ("message", PyVal.str ("AI-generated pristine " ++ artifact_type ++ " using DALL-E 3")),
             ("restored_image_base64", PyVal.str generated_image_base64),
             ("restoration_level", PyVal.str restoration_level),
             ("artifact_type", PyVal.str artifact_type),
             ("reconstruction_description", PyVal.str reconstruction_description),
             ("generation_method", PyVal.str "OpenAI DALL-E 3 - Full Reconstruction"),
             ("note", PyVal.str "This is an AI-generated image showing how the artifact looked when originally created with all parts intact")]
        | Option.none =>
            [("status", PyVal.str "success"),
             ("message", PyVal.str ("Enhanced " ++ artifact_type ++ " with AI reconstruction guidance")),
             ("restored_image_base64", PyVal.str env.enhancedBase64),
             ("restoration_level", PyVal.str restoration_level),
             ("artifact_type", PyVal.str artifact_type),
             ("reconstruction_description", PyVal.str reconstruction_description),
             ("generation_method", PyVal.str "Enhanced Image + AI Description (Set OPENAI_API_KEY for full generation)"),
             ("note", PyVal.str "Enhanced image shown. For full AI reconstruction of missing parts, add OPENAI_API_KEY to .env file")]

/-- `RestorationGenerationAgent.generate_restoration(restoration_level)` from
`sequential_agents.py`.  `tool` is the call to `restore_artifact_image`
(receiving the `image_path` value from the artifact context, the level, and
the `type` field of the vision output); `Except.error e` models an exception
raised inside the `try` body, which is stored and returned as an error
result.  Returns the updated context manager and the returned dict. -/
def RestorationGenerationAgent.generate_restoration (cm : ContextManager)
    (restoration_level : String) (tool : PyVal → String → PyVal → Except String PyDict) :
    ContextManager × PyDict :=
  let vision_output := cm.get_agent_output "vision"
  if !pyTruthy vision_output || !isStatusSuccessV vision_output then
    (cm, [("status", PyVal.str "error"),
          ("message", PyVal.str "Vision analysis required before restoration")])
  else
    let image_path := cm.get_artifact_context (Option.some "image_path")
    let artifact_type := vGetD vision_output "type" (PyVal.str "artifact")
    let context_prompt := cm.build_context_prompt "restoration"
    match tool image_path restoration_level artifact_type with
    | Except.ok restoration_result =>
        let result : PyDict :=
          [("status", PyVal.str "success"),
           ("restored_image_base64", dictGet restoration_result "restored_image"),
           ("restoration_method", dictGetD restoration_result "method" (PyVal.str "AI Generation")),
           ("context_used", PyVal.str
             (if context_prompt.length > 500 then context_prompt.take 500 ++ "..."
              else context_prompt))]
        (cm.store_agent_output "restoration" (PyVal.dict result), result)
    | Except.error e =>
        let error_result : PyDict :=
          [("status", PyVal.str "error"), ("message", PyVal.str e)]
        (cm.store_agent_output "restoration" (PyVal.dict error_result), error_result)

/-- The prediction prompt f-string of
`EnvironmentalPredictionAgent.predict_degradation`. -/
def envPredictionPrompt (context : String) (years : Int)
    (material current_condition : PyVal) : String :=
  context
    ++ "\n\nBased on the artifact analysis and historical context above:\n\nPREDICTION TASK:\n- Time span: "
    ++ toString years ++ " years\n- Current materials: " ++ pyStr material
    ++ "\n- Current condition: " ++ pyStr current_condition
    ++ "\n\nProvide:\n1. LOCATION ASSESSMENT: Where is this likely stored? (Museum, climate)\n2. ENVIRONMENTAL RISKS: Specific threats for this location\n3. DEGRADATION TIMELINE: Year-by-year predictions (0-"
    ++ toString years
    ++ " years)\n   - Year 0 (current): X% degradation\n   - Year 1: X% degradation\n   - Year 5: X% degradation\n   - Year "
    ++ toString years
    ++ ": X% degradation\n4. RISK FACTORS: Temperature, humidity, light, pollution effects\n5. RECOMMENDATIONS: Specific conservation interventions needed\n6. CRITICAL POINTS: When urgent action is required\n\nProvide numerical predictions and scientific reasoning."

/-- `EnvironmentalPredictionAgent.predict_degradation(years)` from
`sequential_agents.py`.  `runner` is the ADK runner call on the prediction
prompt (`Except.error e` models a raised exception); the degradation tool is
the embedded `Tools.predict_degradation`. -/
def EnvironmentalPredictionAgent.predict_degradation (cm : ContextManager) (years : Int)
    (runner : String → Except String String) : ContextManager × PyDict :=
  let vision_output := cm.get_agent_output "vision"
  let historical_output := cm.get_agent_output "historical"
  if !pyTruthy vision_output || !pyTruthy historical_output then
    (cm, [("status", PyVal.str "error"),
          ("message", PyVal.str "Vision and historical analysis required")])
  else
    let context := cm.build_context_prompt "environmental"
    let material := vGetD vision_output "materials" (PyVal.str "unknown")
    let current_condition := vGetD vision_output "condition" (PyVal.str "unknown")
    let prompt := envPredictionPrompt context years material current_condition
    match runner prompt with
    | Except.ok prediction_text =>
        let degradation_data := (Tools.predict_degradation (asPyStr material) years).toDict
        let output : PyDict :=
          [("status", PyVal.str "success"),
           ("predictions", PyVal.str prediction_text),
           ("degradation_timeline", dictGetD degradation_data "timeline" (PyVal.list [])),
           ("chart_data", PyVal.dict degradation_data),
           ("years_analyzed", PyVal.int years)]
        (cm.store_agent_output "environmental" (PyVal.dict output), output)
    | Except.error e =>
        let error_result : PyDict :=
          [("status", PyVal.str "error"), ("message", PyVal.str e)]
        (cm.store_agent_output "environmental" (PyVal.dict error_result), error_result)

-- No branch of `restore_artifact_image` ever emits the keys the restoration
-- handler reads (`"restored_image"`, `"method"`); the tool uses
-- `"restored_image_base64"` and `"generation_method"`.

theorem restore_artifact_image_no_legacy_keys (env : RestoreEnv)
    (ip lvl ty : String) :
    List.lookup "restored_image" (Tools.restore_artifact_image env ip lvl ty) = Option.none
    ∧ List.lookup "method" (Tools.restore_artifact_image env ip lvl ty) = Option.none := by
  unfold Tools.restore_artifact_image
  constructor <;>
    · repeat' split
      all_goals simp +decide [List.lookup]
      all_goals (repeat' split)
      all_goals simp +decide [or_imp, and_imp]
      all_goals
        exact fun a b =>
          ⟨fun h _ => by subst h; decide, fun h _ => by subst h; decide,
           fun h _ => by subst h; decide, fun h _ => by subst h; decide,
           fun h _ => by subst h; decide, fun h _ => by subst h; decide,
           fun h _ => by subst h; decide, fun h _ => by subst h; decide⟩

/-- C5 (counterexample): on a fresh context store (no vision output), the
restoration handler's precondition is unmet; it returns the
`status=error` result but does not record it — `agent_outputs` stays
empty, so the claimed recording of the precondition-error result fails. -/
theorem C5_counterexample_precondition_error_not_recorded :
    (RestorationGenerationAgent.generate_restoration ContextManager.init "medium"
        (fun _ _ _ => Except.error "unused")).2 =
      [("status", PyVal.str "error"),
       ("message", PyVal.str "Vision analysis required before restoration")]
    ∧ (RestorationGenerationAgent.generate_restoration ContextManager.init "medium"
        (fun _ _ _ => Except.error "unused")).1.agent_outputs = [] := by
  exact ⟨rfl, rfl⟩


/-- C5 (amended): a stage handler records its result into the context store
for every run that passes the precondition check — on the success path and
on the exception path alike — but when the precondition is unmet it returns
the `status=error` result *without* recording it, leaving the context store
unchanged.  Shown for the restoration and environmental handlers. -/
theorem C5_stage_results_recording :
    (∀ (cm : ContextManager) (lvl : String)
        (tool : PyVal → String → PyVal → Except String PyDict),
        (pyTruthy (cm.get_agent_output "vision") = false
            ∨ isStatusSuccessV (cm.get_agent_output "vision") = false) →
          RestorationGenerationAgent.generate_restoration cm lvl tool =
            (cm, [("status", PyVal.str "error"),
                  ("message", PyVal.str "Vision analysis required before restoration")]))
    ∧ (∀ (cm : ContextManager) (lvl : String)
        (tool : PyVal → String → PyVal → Except String PyDict),
        pyTruthy (cm.get_agent_output "vision") = true →
        isStatusSuccessV (cm.get_agent_output "vision") = true →
          List.lookup "restoration"
              (RestorationGenerationAgent.generate_restoration cm lvl tool).1.agent_outputs =
            Option.some (PyVal.dict
              (RestorationGenerationAgent.generate_restoration cm lvl tool).2))
    ∧ (∀ (cm : ContextManager) (y : Int) (runner : String → Except String String),
        (pyTruthy (cm.get_agent_output "vision") = false
            ∨ pyTruthy (cm.get_agent_output "historical") = false) →
          EnvironmentalPredictionAgent.predict_degradation cm y runner =
            (cm, [("status", PyVal.str "error"),
                  ("message", PyVal.str "Vision and historical analysis required")]))
    ∧ (∀ (cm : ContextManager) (y : Int) (runner : String → Except String String),
        pyTruthy (cm.get_agent_output "vision") = true →
        pyTruthy (cm.get_agent_output "historical") = true →
          List.lookup "environmental"
              (EnvironmentalPredictionAgent.predict_degradation cm y runner).1.agent_outputs =
            Option.some (PyVal.dict
              (EnvironmentalPredictionAgent.predict_degradation cm y runner).2)) := by
  refine ⟨?_, ?_, ?_, ?_⟩
  · intro cm lvl tool h
    rcases h with h | h <;>
      simp [RestorationGenerationAgent.generate_restoration, h]
  · intro cm lvl tool h1 h2
    rcases htool : tool (cm.get_artifact_context (Option.some "image_path")) lvl
        (vGetD (cm.get_agent_output "vision") "type" (PyVal.str "artifact")) with d | e <;>
      simp [RestorationGenerationAgent.generate_restoration, h1, h2, htool,
        ContextManager.store_agent_output, lookup_assocSet_self]
  · intro cm y runner h
    rcases h with h | h <;>
      simp [EnvironmentalPredictionAgent.predict_degradation, h]
  · intro cm y runner h1 h2
    rcases hrun : runner (envPredictionPrompt (cm.build_context_prompt "environmental") y
        (vGetD (cm.get_agent_output "vision") "materials" (PyVal.str "unknown"))
        (vGetD (cm.get_agent_output "vision") "condition" (PyVal.str "unknown"))) with t | e <;>
      simp [EnvironmentalPredictionAgent.predict_degradation, h1, h2, hrun,
        ContextManager.store_agent_output, lookup_assocSet_self]

/-- Witness for C5: recording observed on concrete runs of both handlers
whose preconditions hold. -/
theorem C5_stage_results_recording_witness :
    List.lookup "restoration"
        ((RestorationGenerationAgent.generate_restoration
            (ContextManager.init.store_agent_output "vision"
              (PyVal.dict [("status", PyVal.str "success")])) "medium"
            (fun _ _ _ => Except.ok [])).1.agent_outputs) =
      Option.some (PyVal.dict ((RestorationGenerationAgent.generate_restoration
            (ContextManager.init.store_agent_output "vision"
              (PyVal.dict [("status", PyVal.str "success")])) "medium"
            (fun _ _ _ => Except.ok [])).2))
    ∧ List.lookup "environmental"
        ((EnvironmentalPredictionAgent.predict_degradation
            ((ContextManager.init.store_agent_output "vision"
                (PyVal.dict [("status", PyVal.str "success")])).store_agent_output "historical"
              (PyVal.dict [("status", PyVal.str "success")])) 10
            (fun _ => Except.ok "prediction")).1.agent_outputs) =
      Option.some (PyVal.dict ((EnvironmentalPredictionAgent.predict_degradation
            ((ContextManager.init.store_agent_output "vision"
                (PyVal.dict [("status", PyVal.str "success")])).store_agent_output "historical"
              (PyVal.dict [("status", PyVal.str "success")])) 10
            (fun _ => Except.ok "prediction")).2)) := by
  exact ⟨C5_stage_results_recording.2.1 _ "medium" _ rfl rfl,
         C5_stage_results_recording.2.2.2 _ 10 _ rfl rfl⟩

/-- C10: for every successful run of the restoration handler — with any tool
configuration — the recorded stage result carries
`restored_image_base64 = None` and `restoration_method = "AI Generation"`:
the handler reads keys `"restored_image"` / `"method"` while the tool emits
`"restored_image_base64"` / `"generation_method"`, so the tool's image bytes
and method tag never reach the recorded stage output. -/
theorem C10_recorded_restoration_loses_tool_fields :
    ∀ (env : RestoreEnv) (cm : ContextManager) (lvl : String),
      pyTruthy (cm.get_agent_output "vision") = true →
      isStatusSuccessV (cm.get_agent_output "vision") = true →
        dictGet (RestorationGenerationAgent.generate_restoration cm lvl
            (fun ip l ty => Except.ok
              (Tools.restore_artifact_image env (asPyStr ip) l (asPyStr ty)))).2
            "restored_image_base64" = PyVal.none
        ∧ dictGet (RestorationGenerationAgent.generate_restoration cm lvl
            (fun ip l ty => Except.ok
              (Tools.restore_artifact_image env (asPyStr ip) l (asPyStr ty)))).2
            "restoration_method" = PyVal.str "AI Generation"
        ∧ dictGet (RestorationGenerationAgent.generate_restoration cm lvl
            (fun ip l ty => Except.ok
              (Tools.restore_artifact_image env (asPyStr ip) l (asPyStr ty)))).2
            "status" = PyVal.str "success"
        ∧ List.lookup "restoration"
            (RestorationGenerationAgent.generate_restoration cm lvl
              (fun ip l ty => Except.ok
                (Tools.restore_artifact_image env (asPyStr ip) l (asPyStr ty)))).1.agent_outputs =
          Option.some (PyVal.dict (RestorationGenerationAgent.generate_restoration cm lvl
            (fun ip l ty => Except.ok
              (Tools.restore_artifact_image env (asPyStr ip) l (asPyStr ty)))).2) := by
  intro env cm lvl h1 h2
  have hleg := restore_artifact_image_no_legacy_keys env
    (asPyStr (cm.get_artifact_context (Option.some "image_path"))) lvl
    (asPyStr (vGetD (cm.get_agent_output "vision") "type" (PyVal.str "artifact")))
  refine ⟨?_, ?_, ?_, ?_⟩ <;>
    simp +decide [RestorationGenerationAgent.generate_restoration, h1, h2, dictGet, dictGetD,
      List.lookup, hleg.1, hleg.2, ContextManager.store_agent_output, lookup_assocSet_self]

/-- Witness for C10: concrete run (OpenAI capability present and DALL-E
succeeding, so the tool returns a generated image) whose recorded stage
result still shows `None` / `"AI Generation"`. -/
theorem C10_recorded_restoration_loses_tool_fields_witness :
    pyTruthy ((ContextManager.init.store_agent_output "vision"
        (PyVal.dict [("status", PyVal.str "success")])).get_agent_output "vision") = true
    ∧ dictGet (RestorationGenerationAgent.generate_restoration
        (ContextManager.init.store_agent_output "vision"
          (PyVal.dict [("status", PyVal.str "success")])) "medium"
        (fun ip l ty => Except.ok
          (Tools.restore_artifact_image
            { imageExists := true, openai_available := true,
              openai_key := Option.some "sk-key", geminiAnalysis := Except.ok "analysis",
              dalle := Except.ok "DALLEB64", enhancedBase64 := "ENHB64" }
            (asPyStr ip) l (asPyStr ty)))).2
        "restored_image_base64" = PyVal.none
    ∧ dictGet (RestorationGenerationAgent.generate_restoration
        (ContextManager.init.store_agent_output "vision"
          (PyVal.dict [("status", PyVal.str "success")])) "medium"
        (fun ip l ty => Except.ok
          (Tools.restore_artifact_image
            { imageExists := true, openai_available := true,
              openai_key := Option.some "sk-key", geminiAnalysis := Except.ok "analysis",
              dalle := Except.ok "DALLEB64", enhancedBase64 := "ENHB64" }
            (asPyStr ip) l (asPyStr ty)))).2
        "restoration_method" = PyVal.str "AI Generation" := by
  refine ⟨rfl, ?_, ?_⟩
  · exact (C10_recorded_restoration_loses_tool_fields
      { imageExists := true, openai_available := true,
        openai_key := Option.some "sk-key", geminiAnalysis := Except.ok "analysis",
        dalle := Except.ok "DALLEB64", enhancedBase64 := "ENHB64" }
      (ContextManager.init.store_agent_output "vision"
        (PyVal.dict [("status", PyVal.str "success")])) "medium" rfl rfl).1
  · exact (C10_recorded_restoration_loses_tool_fields
      { imageExists := true, openai_available := true,
        openai_key := Option.some "sk-key", geminiAnalysis := Except.ok "analysis",
        dalle := Except.ok "DALLEB64", enhancedBase64 := "ENHB64" }
      (ContextManager.init.store_agent_output "vision"
        (PyVal.dict [("status", PyVal.str "success")])) "medium" rfl rfl).2.1

/-- A run configuration with no image-generation capability: the image
exists and the Gemini analysis succeeds, but `OPENAI_AVAILABLE` is false and
no `OPENAI_API_KEY` is set, so the tool takes the enhancement fallback. -/
def envNoOpenAI : RestoreEnv :=
  { imageExists := true, openai_available := false, openai_key := Option.none,
    geminiAnalysis := Except.ok "analysis", dalle := Except.error "not attempted",
    enhancedBase64 := "ENHANCEDB64" }

/-- The context store after a successful (minimal) vision stage. -/
def cmAfterVision : ContextManager :=
  ContextManager.init.store_agent_output "vision" (PyVal.dict [("status", PyVal.str "success")])

/-- C6: with the OpenAI credential absent the tool does fall back to the
enhanced image and does tag its own return dict with the distinct fallback
identifier — but the stage result that reaches the orchestrator from the
handler records `restoration_method = "AI Generation"` and no image, so the
fallback is *not* observable in the stage result (the key mismatch of C10
drops both fields). -/
theorem C6_fallback_tag_dropped_from_stage_result :
    dictGet (Tools.restore_artifact_image envNoOpenAI "artifact.jpg" "medium" "statue")
        "generation_method" =
      PyVal.str "Enhanced Image + AI Description (Set OPENAI_API_KEY for full generation)"
    ∧ dictGet (Tools.restore_artifact_image envNoOpenAI "artifact.jpg" "medium" "statue")
        "restored_image_base64" = PyVal.str "ENHANCEDB64"
    ∧ dictGet (RestorationGenerationAgent.generate_restoration cmAfterVision "medium"
          (fun ip l ty => Except.ok
            (Tools.restore_artifact_image envNoOpenAI (asPyStr ip) l (asPyStr ty)))).2
        "restoration_method" = PyVal.str "AI Generation"
    ∧ dictGet (RestorationGenerationAgent.generate_restoration cmAfterVision "medium"
          (fun ip l ty => Except.ok
            (Tools.restore_artifact_image envNoOpenAI (asPyStr ip) l (asPyStr ty)))).2
        "restored_image_base64" = PyVal.none := by
  exact ⟨rfl, rfl, rfl, rfl⟩

/-! ## `adk_orchestrator.py` -/

/-- The four pipeline stages, in orchestrator order. -/
inductive Stage where
  | vision : Stage
  | restoration : Stage
  | historical : Stage
  | environmental : Stage
deriving DecidableEq

/-- What each stage handler returns when the orchestrator invokes it.  Every
handler returns a dict (each with a `"status"` entry in the real code, but
nothing here assumes that); the handlers' own context-store side effects are
not needed by the orchestrator's control flow, which reads only the returned
dicts. -/
structure AgentOutcomes where
  vision : PyDict
  restoration : PyDict
  historical : PyDict
  environmental : PyDict

/-- The `results` dict built by `process_artifact`, with its keys as fields
(`Option` marks keys that are only conditionally assigned), plus the trace
`invoked` of handler invocations in execution order. -/
structure RunResult where
  image_path : String
  restoration_level : String
  time_span : Int
  workflow_status : String
  agents_executed : List String
  invoked : List Stage
  vision_analysis : Option PyDict
  restoration : Option PyDict
  restored_image : Option PyVal
  historical_context : Option PyDict
  environmental_prediction : Option PyDict
  degradation_timeline : Option PyVal
  error : Option PyVal

/-- `ADKOrchestrator.process_artifact(image_path, restoration_level,
time_span)`: sequential execution with the fatal gates after Vision,
Historical and Environmental (`status != "success"` returns early with
`failed_at_<stage>`) and the non-fatal check after Restoration. -/
def ADKOrchestrator.process_artifact (o : AgentOutcomes) (image_path : String)
    (restoration_level : String) (time_span : Int) : RunResult :=
  let results : RunResult :=
    { image_path := image_path, restoration_level := restoration_level,
      time_span := time_span, workflow_status := "running", agents_executed := [],
      invoked := [], vision_analysis := Option.none, restoration := Option.none,
      restored_image := Option.none, historical_context := Option.none,
      environmental_prediction := Option.none, degradation_timeline := Option.none,
      error := Option.none }
  -- Step 1: Vision Analysis Agent
  let vision_result := o.vision
  let results :=
    { results with
      vision_analysis := Option.some vision_result,
      agents_executed := results.agents_executed ++ ["VisionAnalysisAgent"],
      invoked := results.invoked ++ [Stage.vision] }
  if !isStatusSuccess vision_result then
    { results with
      workflow_status := "failed_at_vision",
      error := Option.some (dictGetD vision_result "message"
          (PyVal.str "Vision analysis failed")) }
  else
    -- Step 2: Restoration Generation Agent
    let restoration_result := o.restoration
    let results :=
      { results with
        restoration := Option.some restoration_result,
        agents_executed := results.agents_executed ++ ["RestorationGenerationAgent"],
        invoked := results.invoked ++ [Stage.restoration] }
    let results :=
      if isStatusSuccess restoration_result then
        { results with
          restored_image := Option.some (dictGet restoration_result "restored_image_base64") }
      else results
    -- Step 3: Historical Context Agent
    let historical_result := o.historical
    let results :=
      { results with
        historical_context := Option.some historical_result,
        agents_executed := results.agents_executed ++ ["HistoricalContextAgent"],
        invoked := results.invoked ++ [Stage.historical] }
    if !isStatusSuccess historical_result then
      { results with
        workflow_status := "failed_at_historical",
        error := Option.some (dictGetD historical_result "message"
            (PyVal.str "Historical context retrieval failed")) }
    else
      -- Step 4: Environmental Prediction Agent
      let environmental_result := o.environmental
      let results :=
        { results with
          environmental_prediction := Option.some environmental_result,
          agents_executed := results.agents_executed ++ ["EnvironmentalPredictionAgent"],
          invoked := results.invoked ++ [Stage.environmental] }
      if !isStatusSuccess environmental_result then
        { results with
          workflow_status := "failed_at_environmental",
          error := Option.some (dictGetD environmental_result "message"
              (PyVal.str "Environmental prediction failed")) }
      else
        { results with
          degradation_timeline := Option.some (dictGetD environmental_result
              "degradation_timeline" (PyVal.list [])),
          workflow_status := "completed" }

/-- C2: when the Vision stage returns `status = "error"`, no other stage
handler is invoked, the workflow status is `failed_at_vision`, and the
executed-agents list contains only the vision agent. -/
theorem C2_vision_failure_halts_pipeline :
    ∀ (o : AgentOutcomes) (p l : String) (t : Int),
      List.lookup "status" o.vision = Option.some (PyVal.str "error") →
        (ADKOrchestrator.process_artifact o p l t).invoked = [Stage.vision]
        ∧ (ADKOrchestrator.process_artifact o p l t).workflow_status = "failed_at_vision"
        ∧ (ADKOrchestrator.process_artifact o p l t).agents_executed = ["VisionAnalysisAgent"]
        ∧ (ADKOrchestrator.process_artifact o p l t).restoration = Option.none
        ∧ (ADKOrchestrator.process_artifact o p l t).historical_context = Option.none
        ∧ (ADKOrchestrator.process_artifact o p l t).environmental_prediction = Option.none := by
  intro o p l t h
  have hs : isStatusSuccess o.vision = false := by
    simp +decide [isStatusSuccess, dictGet, h]
  refine ⟨?_, ?_, ?_, ?_, ?_, ?_⟩ <;>
    simp [ADKOrchestrator.process_artifact, hs]

/-- Witness for C2: a concrete run whose vision outcome is an error. -/
theorem C2_vision_failure_halts_pipeline_witness :
    (ADKOrchestrator.process_artifact
        ⟨[("status", PyVal.str "error"), ("message", PyVal.str "boom")],
         [("status", PyVal.str "success")], [("status", PyVal.str "success")],
         [("status", PyVal.str "success")]⟩ "artifact.jpg" "medium" 10).invoked =
      [Stage.vision]
    ∧ (ADKOrchestrator.process_artifact
        ⟨[("status", PyVal.str "error"), ("message", PyVal.str "boom")],
         [("status", PyVal.str "success")], [("status", PyVal.str "success")],
         [("status", PyVal.str "success")]⟩ "artifact.jpg" "medium" 10).workflow_status =
      "failed_at_vision" := by
  have h := C2_vision_failure_halts_pipeline
    ⟨[("status", PyVal.str "error"), ("message", PyVal.str "boom")],
     [("status", PyVal.str "success")], [("status", PyVal.str "success")],
     [("status", PyVal.str "success")]⟩ "artifact.jpg" "medium" 10 rfl
  exact ⟨h.1, h.2.1⟩

/-- C1: a Restoration-stage error is non-fatal: when Vision succeeds and
Restoration returns `status = "error"`, the Historical handler is still
invoked, the restoration error result is recorded in the aggregate, and if
Historical succeeds the Environmental handler is invoked as well. -/
theorem C1_restoration_failure_nonfatal :
    ∀ (o : AgentOutcomes) (p l : String) (t : Int),
      List.lookup "status" o.vision = Option.some (PyVal.str "success") →
      List.lookup "status" o.restoration = Option.some (PyVal.str "error") →
        Stage.historical ∈ (ADKOrchestrator.process_artifact o p l t).invoked
        ∧ (ADKOrchestrator.process_artifact o p l t).restoration = Option.some o.restoration
        ∧ (List.lookup "status" o.historical = Option.some (PyVal.str "success") →
            Stage.environmental ∈ (ADKOrchestrator.process_artifact o p l t).invoked) := by
  intro o p l t hv hr
  have hvs : isStatusSuccess o.vision = true := by
    simp [isStatusSuccess, dictGet, hv]
  have hrs : isStatusSuccess o.restoration = false := by
    simp +decide [isStatusSuccess, dictGet, hr]
  refine ⟨?_, ?_, ?_⟩
  · simp only [ADKOrchestrator.process_artifact, hvs, hrs]
    split_ifs <;> simp_all
  · simp only [ADKOrchestrator.process_artifact, hvs, hrs]
    split_ifs <;> first | rfl | simp_all
  · intro hh
    have hhs : isStatusSuccess o.historical = true := by
      simp [isStatusSuccess, dictGet, hh]
    simp only [ADKOrchestrator.process_artifact, hvs, hrs, hhs]
    split_ifs <;> simp_all

/-- Witness for C1: concrete run with Vision success, Restoration error,
Historical success. -/
theorem C1_restoration_failure_nonfatal_witness :
    Stage.historical ∈ (ADKOrchestrator.process_artifact
        ⟨[("status", PyVal.str "success")],
         [("status", PyVal.str "error"), ("message", PyVal.str "no credits")],
         [("status", PyVal.str "success")], [("status", PyVal.str "success")]⟩
        "artifact.jpg" "medium" 10).invoked
    ∧ Stage.environmental ∈ (ADKOrchestrator.process_artifact
        ⟨[("status", PyVal.str "success")],
         [("status", PyVal.str "error"), ("message", PyVal.str "no credits")],
         [("status", PyVal.str "success")], [("status", PyVal.str "success")]⟩
        "artifact.jpg" "medium" 10).invoked := by
  have h := C1_restoration_failure_nonfatal
    ⟨[("status", PyVal.str "success")],
     [("status", PyVal.str "error"), ("message", PyVal.str "no credits")],
     [("status", PyVal.str "success")], [("status", PyVal.str "success")]⟩
    "artifact.jpg" "medium" 10 rfl rfl
  exact ⟨h.1, h.2.2 rfl⟩

/-- C8 (counterexample): on a fully successful run all four stages execute,
so `agents_executed` is the *whole* fixed sequence — a prefix, but not a
strict one (a strict prefix must omit a non-empty tail). -/
theorem C8_counterexample_full_run_not_strict_prefix_of_sequence :
    (ADKOrchestrator.process_artifact
        ⟨[("status", PyVal.str "success")], [("status", PyVal.str "success")],
         [("status", PyVal.str "success")], [("status", PyVal.str "success")]⟩
        "artifact.jpg" "medium" 10).agents_executed =
      ["VisionAnalysisAgent", "RestorationGenerationAgent",
       "HistoricalContextAgent", "EnvironmentalPredictionAgent"]
    ∧ ¬ ∃ rest : List String, rest ≠ [] ∧
        (ADKOrchestrator.process_artifact
            ⟨[("status", PyVal.str "success")], [("status", PyVal.str "success")],
             [("status", PyVal.str "success")], [("status", PyVal.str "success")]⟩
            "artifact.jpg" "medium" 10).agents_executed ++ rest =
          ["VisionAnalysisAgent", "RestorationGenerationAgent",
           "HistoricalContextAgent", "EnvironmentalPredictionAgent"] := by
  refine ⟨rfl, ?_⟩
  rintro ⟨rest, hne, happ⟩
  have h1 : (ADKOrchestrator.process_artifact
      ⟨[("status", PyVal.str "success")], [("status", PyVal.str "success")],
       [("status", PyVal.str "success")], [("status", PyVal.str "success")]⟩
      "artifact.jpg" "medium" 10).agents_executed =
    ["VisionAnalysisAgent", "RestorationGenerationAgent",
     "HistoricalContextAgent", "EnvironmentalPredictionAgent"] := rfl
  rw [h1] at happ
  have h3 := happ.trans (List.append_nil
    ["VisionAnalysisAgent", "RestorationGenerationAgent",
     "HistoricalContextAgent", "EnvironmentalPredictionAgent"]).symm
  exact hne (List.append_cancel_left h3)

/-- C8 (amended): for every run, `agents_executed` is a prefix (not
necessarily strict: a fully successful run executes all four stages) of the
fixed sequence `[Vision, Restoration, Historical, Environmental]` — the
stages appear in that order with none skipped before the last executed
one. -/
theorem C8_agents_executed_front_segment :
    ∀ (o : AgentOutcomes) (p l : String) (t : Int),
      ∃ rest : List String,
        (ADKOrchestrator.process_artifact o p l t).agents_executed ++ rest =
          ["VisionAnalysisAgent", "RestorationGenerationAgent",
           "HistoricalContextAgent", "EnvironmentalPredictionAgent"] := by
  intro o p l t
  simp only [ADKOrchestrator.process_artifact]
  split_ifs <;>
    first
      | exact ⟨["RestorationGenerationAgent", "HistoricalContextAgent",
                "EnvironmentalPredictionAgent"], rfl⟩
      | exact ⟨["EnvironmentalPredictionAgent"], rfl⟩
      | exact ⟨[], rfl⟩

/-- C4 (counterexample): a second `store_agent_output` for the same stage
identifier in one run succeeds and silently replaces the first entry — there
is no `DuplicateStageWrite` failure anywhere in the store. -/
theorem C4_counterexample_duplicate_write_overwrites :
    ((ContextManager.init.store_agent_output "vision"
        (PyVal.str "first")).store_agent_output "vision"
        (PyVal.str "second")).agent_outputs = [("vision", PyVal.str "second")] := rfl

/-- C4 (amended): duplicate `store_agent_output` for an already-present stage
identifier succeeds, silently overwriting the existing entry in place (the
mapping keeps its size); no duplicate-write error exists. -/
theorem C4_duplicate_write_silently_overwrites :
    ∀ (cm : ContextManager) (name : String) (v1 v2 : PyVal),
      List.lookup name
          ((cm.store_agent_output name v1).store_agent_output name v2).agent_outputs =
        Option.some v2
      ∧ ((cm.store_agent_output name v1).store_agent_output name v2).agent_outputs.length =
          (cm.store_agent_output name v1).agent_outputs.length := by
  intro cm name v1 v2
  constructor
  · exact lookup_assocSet_self _ _ _
  · exact length_assocSet_of_mem _ _ _ (lookup_assocSet_isSome _ _ _)

/-- C7: `build_context_prompt` is a pure function of the store's current
state: its output does not depend on the `current_agent` argument, and with
no intervening writes two calls yield identical output. -/
theorem C7_build_context_prompt_pure :
    ∀ (cm : ContextManager) (s1 s2 : String),
      cm.build_context_prompt s1 = cm.build_context_prompt s2
      ∧ cm.build_context_prompt s1 = cm.build_context_prompt s1 := by
  intro cm s1 s2
  exact ⟨rfl, rfl⟩

/-- C9: looking up a missing non-empty key returns the absent sentinel
(`None`), but a falsy key — `None` or the empty string — returns the entire
artifact-fact mapping instead. -/
theorem C9_get_artifact_context_falsy_key_returns_whole_dict :
    ∀ (cm : ContextManager) (k : String),
      (k ≠ "" → List.lookup k cm.artifact_context = Option.none →
          cm.get_artifact_context (Option.some k) = PyVal.none)
      ∧ cm.get_artifact_context Option.none = PyVal.dict cm.artifact_context
      ∧ cm.get_artifact_context (Option.some "") = PyVal.dict cm.artifact_context := by
  intro cm k
  refine ⟨?_, rfl, ?_⟩
  · intro hk hnone
    simp [ContextManager.get_artifact_context, hk, dictGet, hnone]
  · simp [ContextManager.get_artifact_context]

/-- Witness for C9: a store with one fact; a missing non-empty key gives
`None`, the empty key gives the whole mapping. -/
theorem C9_get_artifact_context_falsy_key_witness :
    (ContextManager.init.set_artifact_context "workflow_start"
        (PyVal.bool true)).get_artifact_context (Option.some "missing") = PyVal.none
    ∧ (ContextManager.init.set_artifact_context "workflow_start"
        (PyVal.bool true)).get_artifact_context (Option.some "") =
      PyVal.dict [("workflow_start", PyVal.bool true)] := by
  refine ⟨?_, ?_⟩
  · exact (C9_get_artifact_context_falsy_key_returns_whole_dict
      (ContextManager.init.set_artifact_context "workflow_start" (PyVal.bool true))
      "missing").1 (by decide) rfl
  · exact (C9_get_artifact_context_falsy_key_returns_whole_dict
      (ContextManager.init.set_artifact_context "workflow_start" (PyVal.bool true))
      "missing").2.2
